import Mathlib

/-!
Verification development for the subprocess execution and streaming-output
supervision engine of the ora2pg-admin repository
(internal/service/ora2pg.go, internal/service/migration.go,
internal/service/progress.go).

The Go code is shallowly embedded:
* `parseProgress` and its four ordered regular-expression patterns are
  embedded as executable matchers over `List Char` with Go regexp (RE2)
  semantics for these particular patterns (leftmost match, greedy runs of
  the pairwise-disjoint classes `\w`, `\s`, `\d`, literal separators).
* `Execute` / `buildCommandArgs` / `prepareExecutionEnvironment` /
  `executeCommand` become pure functions over an environment oracle
  (`ExecEnv`) recording what the outside world (PATH lookup, filesystem,
  pipes, process start, the wait/timeout/cancel race) answered.
* the goroutine/channel plumbing of `executeCommand`'s two `readOutput`
  pumps is embedded as a small-step transition system (`PumpStep`) with the
  exact channel capacities of the source (100 for the two line channels).
* `ProgressTracker` becomes a state-transformer model of its mutators.
* `ExecuteWithProgress` of MigrationService is embedded with an explicit
  cancellation schedule for the context.
Wall-clock fields (timestamps, durations) are abstracted to a `Nat` clock
passed by the caller; log output is not modeled.
-/

/-! ## Character classes of the Go regular expressions (RE2, ASCII) -/

/-- Go regexp `\w` = `[0-9A-Za-z_]`. -/
def isWordChar (c : Char) : Bool :=
  c.isAlphanum || c = '_'

/-- Go regexp `\s` = `[\t\n\f\r ]`. -/
def isSpaceChar (c : Char) : Bool :=
  c = ' ' || c = '\t' || c = '\n' || c = '\x0c' || c = '\r'

/-- Go regexp `\d` = `[0-9]`. -/
def isDigitChar (c : Char) : Bool :=
  c.isDigit

/-- Try an anchored matcher at every position, returning the leftmost
success: RE2's leftmost-match rule for an unanchored pattern. -/
def scanMatch {α : Type} (m : List Char → Option α) : List Char → Option α
  | [] => m []
  | c :: cs =>
    match m (c :: cs) with
    | some r => some r
    | none => scanMatch m cs

/-- `strconv.Atoi` / `strconv.ParseInt(s, 10, 64)` restricted to the
digit-only strings produced by a `\d+` capture: the numeric value when it
fits in a signed 64-bit integer, otherwise an error (`none`). -/
def atoiDigits (s : String) : Option Nat :=
  let n := s.toList.foldl (fun a c => a * 10 + (c.toNat - '0'.toNat)) 0
  if n < 2 ^ 63 then some n else none

/-- Anchored matcher for pattern 1,
`Processing\s+(\w+):\s+(\w+)\s+\((\d+)/(\d+)\)`,
returning the four capture groups.  The classes `\w`, `\s`, `\d` and the
literal separators are pairwise disjoint, so RE2's greedy matching is
exactly maximal-munch here. -/
def matchP1At (cs : List Char) : Option (String × String × String × String) :=
  if cs.take 10 = "Processing".toList then
    let r0 := cs.drop 10
    let ws1 := r0.takeWhile isSpaceChar
    if ws1.isEmpty then none else
    let r1 := r0.dropWhile isSpaceChar
    let w1 := r1.takeWhile isWordChar
    if w1.isEmpty then none else
    match r1.dropWhile isWordChar with
    | ':' :: r2 =>
      let ws2 := r2.takeWhile isSpaceChar
      if ws2.isEmpty then none else
      let r3 := r2.dropWhile isSpaceChar
      let w2 := r3.takeWhile isWordChar
      if w2.isEmpty then none else
      let r4 := r3.dropWhile isWordChar
      let ws3 := r4.takeWhile isSpaceChar
      if ws3.isEmpty then none else
      match r4.dropWhile isSpaceChar with
      | '(' :: r5 =>
        let d1 := r5.takeWhile isDigitChar
        if d1.isEmpty then none else
        match r5.dropWhile isDigitChar with
        | '/' :: r6 =>
          let d2 := r6.takeWhile isDigitChar
          if d2.isEmpty then none else
          match r6.dropWhile isDigitChar with
          | ')' :: _ => some (String.mk w1, String.mk w2, String.mk d1, String.mk d2)
          | _ => none
        | _ => none
      | _ => none
    | _ => none
  else none

/-- Pattern 1 of `parseProgress`: `Processing\s+(\w+):\s+(\w+)\s+\((\d+)/(\d+)\)`. -/
def matchPattern1 (line : String) : Option (String × String × String × String) :=
  scanMatch matchP1At line.toList

/-- Anchored matcher for pattern 2, `Exported\s+(\d+)\s+rows`. -/
def matchP2At (cs : List Char) : Option String :=
  if cs.take 8 = "Exported".toList then
    let r0 := cs.drop 8
    let ws1 := r0.takeWhile isSpaceChar
    if ws1.isEmpty then none else
    let r1 := r0.dropWhile isSpaceChar
    let d1 := r1.takeWhile isDigitChar
    if d1.isEmpty then none else
    let r2 := r1.dropWhile isDigitChar
    let ws2 := r2.takeWhile isSpaceChar
    if ws2.isEmpty then none else
    let r3 := r2.dropWhile isSpaceChar
    if r3.take 4 = "rows".toList then some (String.mk d1) else none
  else none

/-- Pattern 2 of `parseProgress`: `Exported\s+(\d+)\s+rows`. -/
def matchPattern2 (line : String) : Option String :=
  scanMatch matchP2At line.toList

/-- Anchored matcher for pattern 3, `Total\s+rows:\s+(\d+)`. -/
def matchP3At (cs : List Char) : Option String :=
  if cs.take 5 = "Total".toList then
    let r0 := cs.drop 5
    let ws1 := r0.takeWhile isSpaceChar
    if ws1.isEmpty then none else
    let r1 := r0.dropWhile isSpaceChar
    if r1.take 5 = "rows:".toList then
      let r2 := r1.drop 5
      let ws2 := r2.takeWhile isSpaceChar
      if ws2.isEmpty then none else
      let r3 := r2.dropWhile isSpaceChar
      let d1 := r3.takeWhile isDigitChar
      if d1.isEmpty then none else some (String.mk d1)
    else none
  else none

/-- Pattern 3 of `parseProgress`: `Total\s+rows:\s+(\d+)`. -/
def matchPattern3 (line : String) : Option String :=
  scanMatch matchP3At line.toList

/-- The alternation `(INFO|WARNING|ERROR)` of pattern 4.  The three
alternatives start with distinct letters, so trying them in order without
backtracking is faithful. -/
def matchLevel (cs : List Char) : Option (String × List Char) :=
  if cs.take 4 = "INFO".toList then some ("INFO", cs.drop 4)
  else if cs.take 7 = "WARNING".toList then some ("WARNING", cs.drop 7)
  else if cs.take 5 = "ERROR".toList then some ("ERROR", cs.drop 5)
  else none

/-- Largest index `k` with `1 ≤ k < run.length` and `run[k] ≠ '\n'`:
the backtracking point of greedy `\s+` before `(.+)` when the whole
remainder of the line was whitespace. -/
def lastGoodSplit (run : List Char) : Option Nat :=
  ((List.range run.length).filter
    (fun k => 1 ≤ k && run.getD k ' ' ≠ '\n')).getLast?

/-- The `\s+(.+)` suffix of pattern 4, with Go's greedy/backtracking
semantics: `\s+` takes as much whitespace as possible while still letting
`(.+)` (one or more non-newline characters) match. -/
def matchTail (r : List Char) : Option String :=
  let run := r.takeWhile isSpaceChar
  let rem := r.drop run.length
  if run.isEmpty then none
  else if rem.isEmpty then
    match lastGoodSplit run with
    | some k => some (String.mk ((run.drop k).takeWhile (· ≠ '\n')))
    | none => none
  else some (String.mk (rem.takeWhile (· ≠ '\n')))

/-- Pattern 4 of `parseProgress`: `^(INFO|WARNING|ERROR):\s+(.+)`,
anchored at the start of the line. -/
def matchPattern4 (line : String) : Option (String × String) :=
  match matchLevel line.toList with
  | some (lvl, rest) =>
    match rest with
    | ':' :: r => (matchTail r).map (fun msg => (lvl, msg))
    | _ => none
  | none => none

/-! ## ProgressInfo and parseProgress (ora2pg.go) -/

/-- `ProgressInfo`.  Percentages (Go `float64`) are embedded as rationals;
the two divisions performed by the source (`completed/total` and
`step/total`, both with small operands) are exact in `float64` up to the
granularity the claims inspect, and every claim about percentages is
stated in the rational model. -/
structure ProgressInfoM where
  currentStep : String := ""
  totalSteps : Nat := 0
  completedSteps : Nat := 0
  percentage : ℚ := 0
  processedRows : Nat := 0
  totalRows : Nat := 0
  message : String := ""
deriving DecidableEq

/-- Handler of pattern 1: `处理%s: %s`, update completed/total, recompute
percentage from the current fields guarded by `total > 0`. -/
def applyStepPattern (kind name compl total : String) (p : ProgressInfoM) : ProgressInfoM :=
  let p := { p with currentStep := "处理" ++ kind ++ ": " ++ name }
  let p :=
    match atoiDigits compl with
    | some c => { p with completedSteps := c }
    | none => p
  match atoiDigits total with
  | some t =>
    let p := { p with totalSteps := t }
    if 0 < t then
      { p with percentage := (p.completedSteps : ℚ) / (t : ℚ) * 100 }
    else p
  | none => p

/-- Handler of pattern 2: set processedRows, message `已导出 %s 行数据`. -/
def applyExportedPattern (rows : String) (p : ProgressInfoM) : ProgressInfoM :=
  let p :=
    match atoiDigits rows with
    | some r => { p with processedRows := r }
    | none => p
  { p with message := "已导出 " ++ rows ++ " 行数据" }

/-- Handler of pattern 3: set totalRows. -/
def applyTotalRowsPattern (rows : String) (p : ProgressInfoM) : ProgressInfoM :=
  match atoiDigits rows with
  | some r => { p with totalRows := r }
  | none => p

/-- Handler of pattern 4: message := the captured text. -/
def applyLevelPattern (text : String) (p : ProgressInfoM) : ProgressInfoM :=
  { p with message := text }

/-- `parseProgress`: try the four patterns in order, apply the handler of
the first that matches, then stop (`break` in the source).  The source's
`progress == nil` early return cannot occur here: `Execute` always creates
the struct. -/
def parseProgress (line : String) (p : ProgressInfoM) : ProgressInfoM :=
  match matchPattern1 line with
  | some (kind, name, compl, total) => applyStepPattern kind name compl total p
  | none =>
    match matchPattern2 line with
    | some rows => applyExportedPattern rows p
    | none =>
      match matchPattern3 line with
      | some rows => applyTotalRowsPattern rows p
      | none =>
        match matchPattern4 line with
        | some (_, text) => applyLevelPattern text p
        | none => p

/-- `isImportantLogLine`: case-insensitive substring search for the fixed
keyword set. -/
def isImportantLogLine (line : String) : Bool :=
  let lowerLine := line.toLower
  ["ERROR:", "WARNING:", "FATAL:", "Processing", "Exported", "Total",
    "Completed", "Failed"].any
    (fun pat => (lowerLine.splitOn pat.toLower).length > 1)

/-! ## Execute and its helpers (ora2pg.go) -/

/-- `ExecutionStatus`. -/
inductive ExecStatusM where
  | pending
  | running
  | completed
  | failed
  | cancelled
deriving DecidableEq

/-- The value `cmd.Wait` / the three-way race produced when the child
process was started: `exitError c` is a `*exec.ExitError` whose
`ExitCode()` is `c` (the process's exit code, or -1 if it was killed by a
signal); `ctxCancelled` is `ctx.Err()` after the context-done arm fired;
`timedOut` is the `命令执行超时` error of the timer arm; `otherWaitError`
is any other non-`ExitError` failure of `Wait`. -/
inductive WaitErrM where
  | exitError (code : Int)
  | ctxCancelled
  | timedOut
  | otherWaitError
deriving DecidableEq

/-- The error values produced on Execute's failure paths. -/
inductive ExecErrM where
  | toolNotFound
  | configNotFound (path : String)
  | createFailed (path : String)
  | pipeFailed
  | startFailed
  | waitFailed (w : WaitErrM)
deriving DecidableEq

/-- `ExecutionOptions` (timeout duration and working directory do not
influence any modeled observable; the timer race is folded into
`ExecEnv.waitOutcome`). -/
structure ExecutionOptionsM where
  configFile : String := ""
  outputDir : String := ""
  logFile : String := ""
  dryRun : Bool := false
  verbose : Bool := false
  workingDir : String := ""
  environment : List (String × String) := []
deriving DecidableEq

/-- `ExecutionResult` (wall-clock fields omitted). -/
structure ExecResultM where
  status : ExecStatusM := .pending
  exitCode : Int := 0
  output : String := ""
  errorOutput : String := ""
  progress : Option ProgressInfoM := none
  error : Option ExecErrM := none
deriving DecidableEq

/-- Oracle for everything outside the process supervisor during one
`Execute` call: what `exec.LookPath`, the filesystem, pipe creation,
`cmd.Start` and the wait race answered, and which lines the child wrote. -/
structure ExecEnv where
  toolFound : Bool := true
  configFileExists : Bool := true
  ensureOutputDirOk : Bool := true
  ensureLogDirOk : Bool := true
  pipesOk : Bool := true
  startOk : Bool := true
  waitOutcome : Option WaitErrM := none
  stdoutLines : List String := []
  stderrLines : List String := []
deriving DecidableEq

/-- `buildCommandArgs`: conditional appends in source order; a non-empty
configured file that does not exist is `FileErrors.NotFound`. -/
def buildCommandArgs (migrationType : String) (opts : ExecutionOptionsM)
    (configFileExists : Bool) : Except ExecErrM (List String) :=
  if opts.configFile ≠ "" ∧ configFileExists = false then
    .error (.configNotFound opts.configFile)
  else
    let args := ["ora2pg"]
    let args := if opts.configFile ≠ "" then args ++ ["-c", opts.configFile] else args
    let args := args ++ ["-t", migrationType]
    let args := if opts.outputDir ≠ "" then args ++ ["-o", opts.outputDir] else args
    let args := if opts.verbose = true then args ++ ["-v"] else args
    let args := if opts.dryRun = true then args ++ ["-n"] else args
    let args := if opts.logFile ≠ "" then args ++ ["-l", opts.logFile] else args
    .ok args

/-- `prepareExecutionEnvironment`: EnsureDir for the output directory and
the log file's directory (the `filepath.Dir` of the log path is abstracted
to the log path itself; only success/failure is observable). -/
def prepareExecutionEnvironmentModel (env : ExecEnv) (opts : ExecutionOptionsM) :
    Option ExecErrM :=
  if opts.outputDir ≠ "" ∧ env.ensureOutputDirOk = false then
    some (.createFailed opts.outputDir)
  else if opts.logFile ≠ "" ∧ env.ensureLogDirOk = false then
    some (.createFailed opts.logFile)
  else none

/-- Concatenation of a stream's accumulated lines, newline-terminated, as
collected from the drained channel. -/
def joinLines (ls : List String) : String :=
  String.join (ls.map (fun l => l ++ "\n"))

/-- The shared `result.Progress` after both `readOutput` pumps parsed every
line of their stream (the two pumps interleave arbitrarily; the fold order
chosen here is stdout then stderr, which none of the claims depend on). -/
def pumpedProgress (env : ExecEnv) (p0 : ProgressInfoM) : ProgressInfoM :=
  (env.stdoutLines ++ env.stderrLines).foldl (fun p l => parseProgress l p) p0

/-- `executeCommand` as a terminating result transformer: pipe creation and
start failures return early; otherwise the pumps run, output is collected,
and the exit code is derived from the wait outcome (`ExitCode()` for an
`*exec.ExitError`, otherwise -1, and 0 on a clean exit).  The termination
of the pump/channel barrier itself is modeled separately by `PumpStep`. -/
def executeCommandModel (env : ExecEnv) (r : ExecResultM) :
    ExecResultM × Option ExecErrM :=
  if env.pipesOk = false then (r, some .pipeFailed)
  else if env.startOk = false then (r, some .startFailed)
  else
    let r := { r with
      output := joinLines env.stdoutLines,
      errorOutput := joinLines env.stderrLines,
      progress := some (pumpedProgress env (r.progress.getD {})) }
    match env.waitOutcome with
    | some w =>
      ({ r with exitCode := (match w with | .exitError c => c | _ => -1) },
        some (.waitFailed w))
    | none => ({ r with exitCode := 0 }, none)

/-- `Execute`: validate the tool, build arguments, prepare the environment,
run the command, then derive the final status from the exit code.  Every
failure path marks the result Failed, attaches the error and returns it. -/
def ExecuteModel (env : ExecEnv) (migrationType : String)
    (opts : ExecutionOptionsM) : ExecResultM × Option ExecErrM :=
  let r : ExecResultM := { status := .pending, progress := some {} }
  if env.toolFound = false then
    ({ r with status := .failed, error := some .toolNotFound }, some .toolNotFound)
  else
    match buildCommandArgs migrationType opts env.configFileExists with
    | .error e => ({ r with status := .failed, error := some e }, some e)
    | .ok _args =>
      match prepareExecutionEnvironmentModel env opts with
      | some e => ({ r with status := .failed, error := some e }, some e)
      | none =>
        let r := { r with status := .running }
        match executeCommandModel env r with
        | (r2, some e) => ({ r2 with status := .failed, error := some e }, some e)
        | (r2, none) =>
          if r2.exitCode = 0 then ({ r2 with status := .completed }, none)
          else ({ r2 with status := .failed }, none)

/-! ## ProgressTracker (progress.go) -/

/-- One entry of the bounded update-notification channel. -/
structure ProgressUpdateM where
  step : Nat := 0
  message : String := ""
  percentage : ℚ := 0
  details : String := ""
deriving DecidableEq

/-- `ProgressTracker` state.  The mutex, the display goroutine and the stop
channel are synchronization devices with no further state; the bounded
(capacity-100) update channel is kept as a queue. -/
structure ProgressTracker where
  taskName : String := ""
  totalSteps : Nat := 0
  currentStep : Nat := 0
  currentMessage : String := ""
  percentage : ℚ := 0
  startTime : Nat := 0
  lastUpdateTime : Nat := 0
  isRunning : Bool := false
  updateQueue : List ProgressUpdateM := []
deriving DecidableEq

/-- Non-blocking send on the capacity-100 update channel: drop when full. -/
def trackerEnqueue (u : ProgressUpdateM) (s : ProgressTracker) : ProgressTracker :=
  if s.updateQueue.length < 100 then { s with updateQueue := s.updateQueue ++ [u] }
  else s

/-- `Start(taskName, totalSteps)` at clock value `now`. -/
def ProgressTracker.Start (s : ProgressTracker) (now : Nat) (taskName : String)
    (totalSteps : Nat) : ProgressTracker :=
  { s with
    taskName := taskName, totalSteps := totalSteps, currentStep := 0,
    currentMessage := "准备开始...", percentage := 0,
    startTime := now, lastUpdateTime := now, isRunning := true }

/-- `Stop()`: early return when not running, otherwise flip the flag (the
stop-channel signal and channel close only affect the display loop). -/
def ProgressTracker.Stop (s : ProgressTracker) : ProgressTracker :=
  if s.isRunning = false then s else { s with isRunning := false }

/-- `UpdateStep(step, message)`: no-op unless running; otherwise update the
fields, recompute percentage when totalSteps > 0, then try a non-blocking
enqueue of the notification. -/
def ProgressTracker.UpdateStep (s : ProgressTracker) (now step : Nat)
    (message : String) : ProgressTracker :=
  if s.isRunning = false then s
  else
    let s := { s with
      currentStep := step, currentMessage := message, lastUpdateTime := now }
    let s :=
      if 0 < s.totalSteps then
        { s with percentage := (step : ℚ) / (s.totalSteps : ℚ) * 100 }
      else s
    trackerEnqueue { step := step, message := message, percentage := s.percentage } s

/-- `UpdateProgress(percentage, details)`: no-op unless running. -/
def ProgressTracker.UpdateProgress (s : ProgressTracker) (now : Nat)
    (percentage : ℚ) (details : String) : ProgressTracker :=
  if s.isRunning = false then s
  else
    let s := { s with percentage := percentage, lastUpdateTime := now }
    trackerEnqueue
      { step := s.currentStep, message := s.currentMessage,
        percentage := percentage, details := details } s

/-- `SetMessage(message)`: updates unconditionally (no running-flag check
in the source). -/
def ProgressTracker.SetMessage (s : ProgressTracker) (now : Nat)
    (message : String) : ProgressTracker :=
  { s with currentMessage := message, lastUpdateTime := now }

/-- `Complete(message)`: updates unconditionally (no running-flag check in
the source). -/
def ProgressTracker.Complete (s : ProgressTracker) (now : Nat)
    (message : String) : ProgressTracker :=
  { s with
    currentStep := s.totalSteps, percentage := 100,
    currentMessage := message, lastUpdateTime := now }

/-! ## MigrationService.ExecuteWithProgress (migration.go) -/

/-- The two error values `ExecuteWithProgress` can return: `ctx.Err()` when
the per-iteration cancellation check fired, or `FileErrors.CreateFailed`
from `prepareEnvironment`. -/
inductive MigErrM where
  | cancelled
  | createFailed (path : String)
deriving DecidableEq

/-- Oracle for one `ExecuteWithProgress` call: the configured output
directory and Oracle home, the three `EnsureDir` answers of
`prepareEnvironment`, and the `ExecEnv` the world presents to the i-th
`Execute` call. -/
structure MigEnv where
  outputDir : String := "output"
  oracleHome : String := ""
  ensureOutputDirOk : Bool := true
  ensureLogsDirOk : Bool := true
  ensureBackupDirOk : Bool := true
  execEnv : Nat → ExecEnv

/-- `prepareEnvironment`: EnsureDir for the output, `logs` and `backup`
directories, in that order. -/
def prepareEnvironment (me : MigEnv) : Option MigErrM :=
  if me.ensureOutputDirOk = false then some (.createFailed me.outputDir)
  else if me.ensureLogsDirOk = false then some (.createFailed "logs")
  else if me.ensureBackupDirOk = false then some (.createFailed "backup")
  else none

/-- `buildEnvironment`: ORACLE_HOME when configured, plus NLS_LANG. -/
def buildEnvironment (me : MigEnv) : List (String × String) :=
  (if me.oracleHome ≠ "" then [("ORACLE_HOME", me.oracleHome)] else [])
    ++ [("NLS_LANG", "AMERICAN_AMERICA.UTF8")]

/-- The `ExecutionOptions` that `executeSingleMigration` builds for one
migration type (the wall-clock timestamp embedded in the log file name is
abstracted away; only emptiness of the path fields is observable). -/
def migOptions (me : MigEnv) (migrationType : String) : ExecutionOptionsM :=
  { configFile := me.outputDir ++ "/ora2pg.conf"
    outputDir := me.outputDir
    logFile := "logs/ora2pg-" ++ migrationType ++ ".log"
    dryRun := false
    verbose := false
    workingDir := "."
    environment := buildEnvironment me }

/-- `executeSingleMigration` for the step at position `i` (the position
selects which world state `ExecEnv` the call runs against). -/
def executeSingleMigration (me : MigEnv) (i : Nat) (migrationType : String) :
    ExecResultM × Option ExecErrM :=
  ExecuteModel (me.execEnv i) migrationType (migOptions me migrationType)

/-- Whether the per-iteration `select ctx.Done()` check observes the
context as cancelled at iteration `i`: the context is cancelled from some
schedule point `k` onwards (cancellation is monotone), or never. -/
def ctxCancelledAt (cancelFrom : Option Nat) (i : Nat) : Bool :=
  match cancelFrom with
  | some k => decide (k ≤ i)
  | none => false

/-- The step loop of `ExecuteWithProgress`: check cancellation first, then
update the tracker, run the step, append its result regardless of failure,
push the step's progress to the tracker, and continue. -/
def migrationLoop (me : MigEnv) (cancelFrom : Option Nat) :
    Nat → List String → ProgressTracker →
      List ExecResultM × Option MigErrM × ProgressTracker
  | _, [], tr => ([], none, tr)
  | i, migrationType :: rest, tr =>
    if ctxCancelledAt cancelFrom i = true then ([], some .cancelled, tr)
    else
      let tr := tr.UpdateStep 0 (i + 1) ("执行 " ++ migrationType ++ " 迁移")
      let res := (executeSingleMigration me i migrationType).1
      let tr :=
        match res.progress with
        | some pr => tr.UpdateProgress 0 pr.percentage pr.message
        | none => tr
      let out := migrationLoop me cancelFrom (i + 1) rest tr
      (res :: out.1, out.2.1, out.2.2)

/-- `ExecuteWithProgress`: prepare the environment (an error here returns
nil results plus that error), generate the ora2pg config (failure only
logged, no modeled effect), then run the step loop.  The `MigrationState`
bookkeeping fields are not modeled (nothing the claims mention reads
them). -/
def ExecuteWithProgress (me : MigEnv) (cancelFrom : Option Nat)
    (migrationTypes : List String) (tr : ProgressTracker) :
    List ExecResultM × Option MigErrM × ProgressTracker :=
  match prepareEnvironment me with
  | some e => ([], some e, tr)
  | none => migrationLoop me cancelFrom 0 migrationTypes tr

/-! ## The channel/goroutine structure of executeCommand (ora2pg.go)

`executeCommand` launches two `readOutput` goroutines.  Each sends every
scanned line (newline re-appended) into its own channel of capacity 100
with a *blocking* send, and signals `doneChan` once its stream ends.  The
main goroutine receives from `doneChan` twice and only then drains the two
line channels into the result.  This is embedded as a small-step
transition system over the joint state. -/

/-- Joint state of the two pumps, the two capacity-100 line channels, the
done barrier, and the main goroutine's collection step. -/
structure PumpState where
  outLines : List String
  errLines : List String
  outChan : List String
  errChan : List String
  outDone : Bool
  errDone : Bool
  collected : Option (String × String)
deriving DecidableEq

/-- One scheduler step.  `sendOut`/`sendErr` are the blocking channel sends
inside `readOutput` (enabled only while the buffer holds fewer than 100
items); `signalOut`/`signalErr` are the deferred `doneChan <- true` after a
stream ends; `collect` is the main goroutine passing the two `<-doneChan`
receives and draining both channels into `result.Output` /
`result.ErrorOutput`. -/
inductive PumpStep : PumpState → PumpState → Prop where
  | sendOut (s : PumpState) (l : String) (rest : List String)
      (h : s.outLines = l :: rest) (hq : s.outChan.length < 100) :
      PumpStep s { s with outLines := rest, outChan := s.outChan ++ [l ++ "\n"] }
  | sendErr (s : PumpState) (l : String) (rest : List String)
      (h : s.errLines = l :: rest) (hq : s.errChan.length < 100) :
      PumpStep s { s with errLines := rest, errChan := s.errChan ++ [l ++ "\n"] }
  | signalOut (s : PumpState) (h : s.outLines = []) (hd : s.outDone = false) :
      PumpStep s { s with outDone := true }
  | signalErr (s : PumpState) (h : s.errLines = []) (hd : s.errDone = false) :
      PumpStep s { s with errDone := true }
  | collect (s : PumpState) (h1 : s.outDone = true) (h2 : s.errDone = true)
      (h3 : s.collected = none) :
      PumpStep s { s with collected := some (String.join s.outChan, String.join s.errChan) }

/-- Reachability under any interleaving of the three goroutines. -/
def PumpReach : PumpState → PumpState → Prop :=
  Relation.ReflTransGen PumpStep

/-- Initial pump state for a child process that wrote the given stdout and
stderr lines and exited. -/
def pumpInit (outLs errLs : List String) : PumpState :=
  { outLines := outLs, errLines := errLs, outChan := [], errChan := [],
    outDone := false, errDone := false, collected := none }

/-- The imbalanced-output scenario of the claim: 101 lines on stderr,
nothing on stdout. -/
def imbalancedInit : PumpState :=
  pumpInit [] (List.replicate 101 "E")

/-- Invariant refuting completion of the imbalanced run: the stderr reader
has not signaled, nothing was collected, the stderr channel plus the
unread stderr lines still hold all 101 lines, and the channel respects its
capacity. -/
def pumpStuckInv (s : PumpState) : Prop :=
  s.errDone = false ∧ s.collected = none ∧
    s.errChan.length + s.errLines.length = 101 ∧ s.errChan.length ≤ 100

/-! ## Concrete fixtures used by witnesses and counterexamples -/

/-- An execution environment in which everything succeeds and the process
exits cleanly. -/
def envClean : ExecEnv := {}

/-- An execution environment in which the started process exits with
code 3. -/
def envExit3 : ExecEnv := { waitOutcome := some (.exitError 3) }

/-- An execution environment in which `exec.LookPath("ora2pg")` fails. -/
def envToolMissing : ExecEnv := { toolFound := false }

/-- A migration environment in which every step succeeds. -/
def meOk : MigEnv := { execEnv := fun _ => envClean }

/-- A migration environment in which `EnsureDir` on the output directory
fails during `prepareEnvironment`. -/
def mePrepFail : MigEnv := { ensureOutputDirOk := false, execEnv := fun _ => envClean }

/-- A migration environment in which the second step's process exits with
a non-zero code and the other steps succeed. -/
def meStep2Fails : MigEnv :=
  { execEnv := fun i => if i = 1 then envExit3 else envClean }

/-- The three-step list of the best-effort orchestration scenario. -/
def typesThree : List String := ["TABLE", "VIEW", "SEQUENCE"]

/-- A tracker that was started and then stopped: `isRunning` is false. -/
def stoppedTracker : ProgressTracker :=
  (({} : ProgressTracker).Start 0 "迁移任务" 5).Stop

/-- The percentage invariant asserted by the specification for the
progress model: recomputed from completedSteps/totalSteps when positive,
zero when totalSteps is zero. -/
def percentageInv (p : ProgressInfoM) : Prop :=
  (0 < p.totalSteps →
    p.percentage = (p.completedSteps : ℚ) / (p.totalSteps : ℚ) * 100) ∧
  (p.totalSteps = 0 → p.percentage = 0)

/-- A line is step-benign when, if it matches the step pattern at all, its
total capture parses in 64-bit range to a positive value. -/
def stepLineOk (line : String) : Prop :=
  ∀ k n c t, matchPattern1 line = some (k, n, c, t) →
    ∃ tv, atoiDigits t = some tv ∧ 0 < tv

/-- Fold a sequence of Parse calls over the fresh progress model. -/
def parseAll (lines : List String) : ProgressInfoM :=
  lines.foldl (fun p l => parseProgress l p) {}

/-! ## Theorems: line classifier (claims C6, C7, C8) -/

/-- parseProgress applies the step-pattern handler when pattern 1 matches,
without trying the later patterns. -/
theorem parseProgress_pattern1 (line : String) (p : ProgressInfoM)
    (k n c t : String) (h : matchPattern1 line = some (k, n, c, t)) :
    parseProgress line p = applyStepPattern k n c t p := by
  simp [parseProgress, h]

/-- The step-pattern handler never touches message, processedRows or
totalRows (those belong to the later patterns). -/
theorem applyStepPattern_untouched (k n c t : String) (p : ProgressInfoM) :
    (applyStepPattern k n c t p).message = p.message ∧
    (applyStepPattern k n c t p).processedRows = p.processedRows ∧
    (applyStepPattern k n c t p).totalRows = p.totalRows := by
  unfold applyStepPattern
  cases hc : atoiDigits c <;> cases ht : atoiDigits t <;>
    simp [hc, ht] <;> split <;> simp

/-- Claim C6: parseProgress tries its patterns in fixed priority order and
applies only the first that matches; on the line
"Processing table: USERS (3/10)" and a fresh model it yields
completedSteps 3, totalSteps 10, percentage 30, currentStep containing
"USERS"; and on "ERROR: Exported 5 rows", which matches both the
exported-rows pattern and the level pattern, only the earlier
exported-rows handler runs. -/
theorem parse_first_match_priority :
    (∀ (line : String) (p : ProgressInfoM) (k n c t : String),
      matchPattern1 line = some (k, n, c, t) →
      parseProgress line p = applyStepPattern k n c t p ∧
      (parseProgress line p).message = p.message ∧
      (parseProgress line p).processedRows = p.processedRows ∧
      (parseProgress line p).totalRows = p.totalRows) ∧
    (parseProgress "Processing table: USERS (3/10)" {}).completedSteps = 3 ∧
    (parseProgress "Processing table: USERS (3/10)" {}).totalSteps = 10 ∧
    (parseProgress "Processing table: USERS (3/10)" {}).percentage = 30 ∧
    (parseProgress "Processing table: USERS (3/10)" {}).currentStep
      = "处理table: " ++ "USERS" ∧
    matchPattern4 "ERROR: Exported 5 rows" = some ("ERROR", "Exported 5 rows") ∧
    (parseProgress "ERROR: Exported 5 rows" {}).message = "已导出 5 行数据" ∧
    (parseProgress "ERROR: Exported 5 rows" {}).processedRows = 5 := by
  refine ⟨?_, rfl, rfl, ?_, rfl, rfl, rfl, rfl⟩
  · intro line p k n c t h
    rw [parseProgress_pattern1 line p k n c t h]
    exact ⟨rfl, applyStepPattern_untouched k n c t p⟩
  · have h : (parseProgress "Processing table: USERS (3/10)" {}).percentage
        = ((3 : ℕ) : ℚ) / ((10 : ℕ) : ℚ) * 100 := rfl
    rw [h]
    norm_num

/-- Witness for C6: the general first-match clause applied at the concrete
scenario line. -/
theorem parse_first_match_priority_witness :
    matchPattern1 "Processing table: USERS (3/10)"
      = some ("table", "USERS", "3", "10") ∧
    parseProgress "Processing table: USERS (3/10)" {}
      = applyStepPattern "table" "USERS" "3" "10" {} :=
  ⟨rfl, (parse_first_match_priority.1 "Processing table: USERS (3/10)" {}
    "table" "USERS" "3" "10" rfl).1⟩

/-- Claim C7: parsing "Processing X: Y (0/0)" leaves percentage exactly at
its prior value for every prior state — the handler never divides when the
parsed total is 0 (the recomputation sits under a `0 < total` guard). -/
theorem parse_zero_total_keeps_percentage :
    ∀ p : ProgressInfoM,
      (parseProgress "Processing X: Y (0/0)" p).percentage = p.percentage :=
  fun _ => rfl

/-- The exported-rows handler does not touch the step/percentage fields. -/
theorem applyExportedPattern_fields (rows : String) (p : ProgressInfoM) :
    (applyExportedPattern rows p).totalSteps = p.totalSteps ∧
    (applyExportedPattern rows p).completedSteps = p.completedSteps ∧
    (applyExportedPattern rows p).percentage = p.percentage := by
  unfold applyExportedPattern
  cases h : atoiDigits rows <;> simp [h]

/-- The total-rows handler does not touch the step/percentage fields. -/
theorem applyTotalRowsPattern_fields (rows : String) (p : ProgressInfoM) :
    (applyTotalRowsPattern rows p).totalSteps = p.totalSteps ∧
    (applyTotalRowsPattern rows p).completedSteps = p.completedSteps ∧
    (applyTotalRowsPattern rows p).percentage = p.percentage := by
  unfold applyTotalRowsPattern
  cases h : atoiDigits rows <;> simp [h]

/-- A step-pattern line whose total parses to a positive in-range value
re-establishes the percentage invariant outright. -/
theorem applyStepPattern_inv (k n c t : String) (p : ProgressInfoM)
    (h : ∃ tv, atoiDigits t = some tv ∧ 0 < tv) :
    percentageInv (applyStepPattern k n c t p) := by
  obtain ⟨tv, ht, htv⟩ := h
  unfold applyStepPattern percentageInv
  cases hc : atoiDigits c <;>
    simp only [ht, hc, if_pos htv] <;>
    refine ⟨fun _ => by trivial, fun h0 => absurd h0 (by omega)⟩

/-- One Parse call preserves the percentage invariant on step-benign
lines. -/
theorem parseProgress_inv (line : String) (p : ProgressInfoM)
    (hl : stepLineOk line) (hp : percentageInv p) :
    percentageInv (parseProgress line p) := by
  unfold parseProgress
  cases h1 : matchPattern1 line with
  | some caps =>
    obtain ⟨k, n, c, t⟩ := caps
    exact applyStepPattern_inv k n c t p (hl k n c t h1)
  | none =>
    cases h2 : matchPattern2 line with
    | some rows =>
      obtain ⟨e1, e2, e3⟩ := applyExportedPattern_fields rows p
      exact ⟨fun h0 => by rw [e1] at h0; rw [e3, e1, e2]; exact hp.1 h0,
        fun h0 => by rw [e1] at h0; rw [e3]; exact hp.2 h0⟩
    | none =>
      cases h3 : matchPattern3 line with
      | some rows =>
        obtain ⟨e1, e2, e3⟩ := applyTotalRowsPattern_fields rows p
        exact ⟨fun h0 => by rw [e1] at h0; rw [e3, e1, e2]; exact hp.1 h0,
          fun h0 => by rw [e1] at h0; rw [e3]; exact hp.2 h0⟩
      | none =>
        cases h4 : matchPattern4 line with
        | some lt =>
          obtain ⟨lvl, text⟩ := lt
          exact ⟨fun h0 => hp.1 h0, fun h0 => hp.2 h0⟩
        | none => exact hp

/-- Folding Parse over step-benign lines preserves the invariant. -/
theorem parseProgress_inv_fold (lines : List String) :
    ∀ p : ProgressInfoM, percentageInv p → (∀ l ∈ lines, stepLineOk l) →
      percentageInv (lines.foldl (fun p l => parseProgress l p) p) := by
  induction lines with
  | nil => intro p hp _; simpa using hp
  | cons l ls ih =>
    intro p hp hok
    simp only [List.foldl_cons]
    exact ih (parseProgress l p)
      (parseProgress_inv l p (hok l (by simp)) hp)
      (fun x hx => hok x (by simp [hx]))

/-- Counterexample to claim C8 as stated: from the initial model, parsing
"Processing table: USERS (3/10)" and then "Processing table: USERS (3/0)"
reaches a state with totalSteps = 0 whose percentage is still 30, not 0 —
the zero-total guard keeps the stale percentage while totalSteps is
overwritten with 0. -/
theorem parse_zero_total_violates_invariant :
    (parseAll ["Processing table: USERS (3/10)",
      "Processing table: USERS (3/0)"]).totalSteps = 0 ∧
    (parseAll ["Processing table: USERS (3/10)",
      "Processing table: USERS (3/0)"]).percentage = 30 ∧
    (parseAll ["Processing table: USERS (3/10)",
      "Processing table: USERS (3/0)"]).percentage ≠ 0 := by
  have h : (parseAll ["Processing table: USERS (3/10)",
      "Processing table: USERS (3/0)"]).percentage
      = ((3 : ℕ) : ℚ) / ((10 : ℕ) : ℚ) * 100 := rfl
  refine ⟨rfl, ?_, ?_⟩ <;> rw [h] <;> norm_num

/-- Claim C8, amended: the invariant (percentage = completed/total×100
when totalSteps > 0, percentage = 0 when totalSteps = 0) holds for every
model reachable from the initial state by Parse calls whose step-pattern
lines all carry a positive, 64-bit-parseable total.  Without that
restriction a "(c/0)" line (or a total overflowing Atoi) updates
totalSteps or completedSteps while the guard keeps the prior percentage. -/
theorem parse_percentage_invariant (lines : List String)
    (h : ∀ l ∈ lines, stepLineOk l) : percentageInv (parseAll lines) :=
  parseProgress_inv_fold lines {}
    ⟨fun h0 => absurd h0 (by decide), fun _ => rfl⟩ h

/-- Witness for the amended C8 at a concrete step-benign line list. -/
theorem parse_percentage_invariant_witness :
    (∀ l ∈ ["Processing table: USERS (3/10)"], stepLineOk l) ∧
    percentageInv (parseAll ["Processing table: USERS (3/10)"]) := by
  have hok : ∀ l ∈ ["Processing table: USERS (3/10)"], stepLineOk l := by
    intro l hl
    simp only [List.mem_singleton] at hl
    subst hl
    intro k n c t hm
    rw [show matchPattern1 "Processing table: USERS (3/10)"
      = some ("table", "USERS", "3", "10") from rfl] at hm
    simp only [Option.some.injEq, Prod.mk.injEq] at hm
    obtain ⟨-, -, -, ht⟩ := hm
    exact ⟨10, by rw [← ht]; rfl, by omega⟩
  exact ⟨hok, parse_percentage_invariant _ hok⟩

/-! ## Theorems: argument vector and Execute (claims C9, C2, C10) -/

/-- Helper: the exact argument vector when the config-file check passes. -/
theorem buildCommandArgs_eq (migrationType : String) (opts : ExecutionOptionsM)
    (ce : Bool) (h : opts.configFile = "" ∨ ce = true) :
    buildCommandArgs migrationType opts ce = .ok
      (["ora2pg"]
        ++ (if opts.configFile ≠ "" then ["-c", opts.configFile] else [])
        ++ ["-t", migrationType]
        ++ (if opts.outputDir ≠ "" then ["-o", opts.outputDir] else [])
        ++ (if opts.verbose = true then ["-v"] else [])
        ++ (if opts.dryRun = true then ["-n"] else [])
        ++ (if opts.logFile ≠ "" then ["-l", opts.logFile] else [])) := by
  have hcond : ¬(opts.configFile ≠ "" ∧ ce = false) := by
    rcases h with h | h <;> simp [h]
  unfold buildCommandArgs
  rw [if_neg hcond]
  split_ifs <;> simp

/-- Claim C9: the built argument vector is exactly
[ora2pg, -c cf?, -t type, -o dir?, -v?, -n?, -l log?] in that order, each
optional flag present iff its option is non-empty/true, the -t pair always
present. -/
theorem buildCommandArgs_vector (migrationType : String)
    (opts : ExecutionOptionsM) (ce : Bool)
    (h : opts.configFile = "" ∨ ce = true) :
    buildCommandArgs migrationType opts ce = .ok
      (["ora2pg"]
        ++ (if opts.configFile ≠ "" then ["-c", opts.configFile] else [])
        ++ ["-t", migrationType]
        ++ (if opts.outputDir ≠ "" then ["-o", opts.outputDir] else [])
        ++ (if opts.verbose = true then ["-v"] else [])
        ++ (if opts.dryRun = true then ["-n"] else [])
        ++ (if opts.logFile ≠ "" then ["-l", opts.logFile] else [])) :=
  buildCommandArgs_eq migrationType opts ce h

/-- Witness for C9: all options set, every flag present in source order. -/
theorem buildCommandArgs_vector_witness :
    buildCommandArgs "TABLE"
      { configFile := "test.conf", outputDir := "output", logFile := "test.log",
        dryRun := true, verbose := true } true
      = .ok ["ora2pg", "-c", "test.conf", "-t", "TABLE", "-o", "output",
          "-v", "-n", "-l", "test.log"] := by
  rw [buildCommandArgs_vector "TABLE" _ true (Or.inr rfl)]
  rfl

/-- Helper: environment preparation succeeds when each configured path's
EnsureDir succeeds. -/
theorem prepareExecutionEnvironmentModel_none (env : ExecEnv)
    (opts : ExecutionOptionsM)
    (h1 : opts.outputDir = "" ∨ env.ensureOutputDirOk = true)
    (h2 : opts.logFile = "" ∨ env.ensureLogDirOk = true) :
    prepareExecutionEnvironmentModel env opts = none := by
  have c1 : ¬(opts.outputDir ≠ "" ∧ env.ensureOutputDirOk = false) := by
    rcases h1 with h | h <;> simp [h]
  have c2 : ¬(opts.logFile ≠ "" ∧ env.ensureLogDirOk = false) := by
    rcases h2 with h | h <;> simp [h]
  unfold prepareExecutionEnvironmentModel
  rw [if_neg c1, if_neg c2]

/-- Helper: the value of Execute once the child process was started — the
result is determined by the wait outcome. -/
theorem ExecuteModel_started (env : ExecEnv) (migrationType : String)
    (opts : ExecutionOptionsM)
    (htool : env.toolFound = true)
    (hcfg : opts.configFile = "" ∨ env.configFileExists = true)
    (h1 : opts.outputDir = "" ∨ env.ensureOutputDirOk = true)
    (h2 : opts.logFile = "" ∨ env.ensureLogDirOk = true)
    (hpipe : env.pipesOk = true) (hstart : env.startOk = true) :
    ExecuteModel env migrationType opts =
      (match env.waitOutcome with
      | some w =>
        ({ status := .failed,
           exitCode := (match w with | .exitError c => c | _ => -1),
           output := joinLines env.stdoutLines,
           errorOutput := joinLines env.stderrLines,
           progress := some (pumpedProgress env {}),
           error := some (.waitFailed w) }, some (.waitFailed w))
      | none =>
        ({ status := .completed, exitCode := 0,
           output := joinLines env.stdoutLines,
           errorOutput := joinLines env.stderrLines,
           progress := some (pumpedProgress env {}),
           error := none }, none)) := by
  unfold ExecuteModel executeCommandModel
  rw [buildCommandArgs_eq migrationType opts _ hcfg,
    prepareExecutionEnvironmentModel_none env opts h1 h2]
  simp only [htool, hpipe, hstart]
  cases hw : env.waitOutcome with
  | some w => cases w <;> simp
  | none => simp

/-- Claim C2: for a started child process, exitCode is 0 on clean exit,
the reported code on an ExitError, and -1 on timeout/cancellation kill;
status is Completed iff exitCode = 0, with timeout and cancellation both
reported as Failed, distinguishable only through the attached error.
The hypothesis on exitError codes records Go's guarantee that cmd.Wait
returns nil (not an ExitError) on a clean exit, and that ExitCode() of a
signal-killed process is -1, never 0. -/
theorem execute_exitCode_status (env : ExecEnv) (migrationType : String)
    (opts : ExecutionOptionsM)
    (htool : env.toolFound = true)
    (hcfg : opts.configFile = "" ∨ env.configFileExists = true)
    (h1 : opts.outputDir = "" ∨ env.ensureOutputDirOk = true)
    (h2 : opts.logFile = "" ∨ env.ensureLogDirOk = true)
    (hpipe : env.pipesOk = true) (hstart : env.startOk = true)
    (hwf : ∀ c : Int, env.waitOutcome = some (.exitError c) → c ≠ 0) :
    (env.waitOutcome = none →
      (ExecuteModel env migrationType opts).1.exitCode = 0 ∧
      (ExecuteModel env migrationType opts).1.status = .completed) ∧
    (∀ c : Int, env.waitOutcome = some (.exitError c) →
      (ExecuteModel env migrationType opts).1.exitCode = c ∧
      (ExecuteModel env migrationType opts).1.status = .failed) ∧
    (env.waitOutcome = some .timedOut →
      (ExecuteModel env migrationType opts).1.exitCode = -1 ∧
      (ExecuteModel env migrationType opts).1.status = .failed ∧
      (ExecuteModel env migrationType opts).1.error
        = some (.waitFailed .timedOut)) ∧
    (env.waitOutcome = some .ctxCancelled →
      (ExecuteModel env migrationType opts).1.exitCode = -1 ∧
      (ExecuteModel env migrationType opts).1.status = .failed ∧
      (ExecuteModel env migrationType opts).1.error
        = some (.waitFailed .ctxCancelled)) ∧
    ((ExecuteModel env migrationType opts).1.status = .completed ↔
      (ExecuteModel env migrationType opts).1.exitCode = 0) := by
  rw [ExecuteModel_started env migrationType opts htool hcfg h1 h2 hpipe hstart]
  cases hw : env.waitOutcome with
  | none => simp
  | some w =>
    cases w with
    | exitError c =>
      have hc : c ≠ 0 := hwf c hw
      simp [hc]
    | ctxCancelled => simp
    | timedOut => simp
    | otherWaitError => simp

/-- Witness for C2: the started process exits with code 3. -/
theorem execute_exitCode_status_witness :
    (ExecuteModel envExit3 "TABLE" {}).1.exitCode = 3 ∧
    (ExecuteModel envExit3 "TABLE" {}).1.status = .failed :=
  (execute_exitCode_status envExit3 "TABLE" {} rfl (Or.inl rfl) (Or.inl rfl)
    (Or.inl rfl) rfl rfl
    (by intro c hc; simp only [envExit3, Option.some.injEq,
      WaitErrM.exitError.injEq] at hc; omega)).2.1 3 rfl

/-- Claim C10: every Execute call returns a result whose Progress field is
non-nil (allocated at entry and only ever replaced by another non-nil
snapshot), and whenever Execute returns a non-nil error the result carries
Status = Failed and that same error. -/
theorem execute_result_progress_error (env : ExecEnv) (migrationType : String)
    (opts : ExecutionOptionsM) :
    (ExecuteModel env migrationType opts).1.progress.isSome = true ∧
    ∀ e : ExecErrM, (ExecuteModel env migrationType opts).2 = some e →
      (ExecuteModel env migrationType opts).1.status = .failed ∧
      (ExecuteModel env migrationType opts).1.error = some e := by
  unfold ExecuteModel executeCommandModel
  split
  · simp
  · split
    · simp
    · split
      · simp
      · split
        · simp
        · split
          · simp
          · split <;> simp

/-- Witness for C10: the tool-not-found failure path still carries a
non-nil Progress and a Failed status with the same error. -/
theorem execute_result_progress_error_witness :
    (ExecuteModel envToolMissing "TABLE" {}).1.progress.isSome = true ∧
    (ExecuteModel envToolMissing "TABLE" {}).1.status = .failed ∧
    (ExecuteModel envToolMissing "TABLE" {}).1.error = some .toolNotFound := by
  have h := execute_result_progress_error envToolMissing "TABLE" {}
  exact ⟨h.1, (h.2 .toolNotFound rfl).1, (h.2 .toolNotFound rfl).2⟩

/-! ## Theorems: ProgressTracker (claim C5) -/

/-- Counterexample to claim C5 as stated: on a stopped tracker (running
flag false), SetMessage still overwrites the message and Complete still
forces percentage to 100 — neither checks the running flag. -/
theorem tracker_mutator_after_stop_mutates :
    stoppedTracker.isRunning = false ∧
    stoppedTracker.currentMessage = "准备开始..." ∧
    (stoppedTracker.SetMessage 7 "全部完成").currentMessage = "全部完成" ∧
    stoppedTracker.percentage = 0 ∧
    (stoppedTracker.Complete 7 "全部完成").percentage = 100 :=
  ⟨rfl, rfl, rfl, rfl, rfl⟩

/-- Claim C5, amended: after Stop, UpdateStep and UpdateProgress are
no-ops (they check the running flag), but SetMessage and Complete are not:
they mutate message, lastUpdateTime — and for Complete also currentStep
and percentage — regardless of the flag. -/
theorem tracker_mutators_after_stop (s : ProgressTracker)
    (h : s.isRunning = false) (now step : Nat) (msg det : String) (pct : ℚ) :
    s.UpdateStep now step msg = s ∧
    s.UpdateProgress now pct det = s ∧
    s.SetMessage now msg
      = { s with currentMessage := msg, lastUpdateTime := now } ∧
    s.Complete now msg
      = { s with
          currentStep := s.totalSteps, percentage := 100,
          currentMessage := msg, lastUpdateTime := now } := by
  refine ⟨?_, ?_, rfl, rfl⟩ <;>
    simp [ProgressTracker.UpdateStep, ProgressTracker.UpdateProgress, h]

/-- Witness for the amended C5 on the concrete stopped tracker. -/
theorem tracker_mutators_after_stop_witness :
    stoppedTracker.UpdateStep 9 3 "x" = stoppedTracker ∧
    stoppedTracker.UpdateProgress 9 50 "d" = stoppedTracker :=
  ⟨(tracker_mutators_after_stop stoppedTracker rfl 9 3 "x" "d" 50).1,
    (tracker_mutators_after_stop stoppedTracker rfl 9 3 "x" "d" 50).2.1⟩

/-! ## Theorems: ExecuteWithProgress (claims C3, C4) -/

/-- Helper: the step loop under a cancellation schedule `some k`: if the
schedule point falls inside the remaining steps the loop stops there with
the cancellation error and exactly the earlier results; if it lies beyond
them the loop completes with no error. -/
theorem migrationLoop_cancel_spec (me : MigEnv) (k : Nat) :
    ∀ (ts : List String) (i : Nat) (tr : ProgressTracker),
      (i ≤ k → k < i + ts.length →
        (migrationLoop me (some k) i ts tr).2.1 = some .cancelled ∧
        (migrationLoop me (some k) i ts tr).1.length = k - i) ∧
      (i + ts.length ≤ k →
        (migrationLoop me (some k) i ts tr).2.1 = none ∧
        (migrationLoop me (some k) i ts tr).1.length = ts.length) := by
  intro ts
  induction ts with
  | nil =>
    intro i tr
    exact ⟨fun h1 h2 => absurd h2 (by simp; omega), fun _ => ⟨rfl, rfl⟩⟩
  | cons t rest ih =>
    intro i tr
    by_cases hk : k ≤ i
    · have hcan : ctxCancelledAt (some k) i = true := by
        simp [ctxCancelledAt]; omega
      constructor
      · intro h1 h2
        simp [migrationLoop, hcan]
        omega
      · intro h1
        exfalso
        simp at h1
        omega
    · have hcan : ctxCancelledAt (some k) i = false := by
        simp [ctxCancelledAt]; omega
      constructor
      · intro h1 h2
        have h2' : k < (i + 1) + rest.length := by simp at h2 ⊢; omega
        have h1' : i + 1 ≤ k := by omega
        simp only [migrationLoop, hcan, Bool.false_eq_true, if_false,
          List.length_cons]
        refine ⟨((ih (i + 1) _).1 h1' h2').1, ?_⟩
        rw [((ih (i + 1) _).1 h1' h2').2]
        omega
      · intro h1
        have h1' : (i + 1) + rest.length ≤ k := by simp at h1; omega
        simp only [migrationLoop, hcan, Bool.false_eq_true, if_false,
          List.length_cons]
        refine ⟨((ih (i + 1) _).2 h1').1, ?_⟩
        rw [((ih (i + 1) _).2 h1').2]

/-- Helper: the step loop without cancellation returns no error and one
result per step, in order, the j-th result being the Execute outcome of
the j-th step. -/
theorem migrationLoop_none_spec (me : MigEnv) :
    ∀ (ts : List String) (i : Nat) (tr : ProgressTracker),
      (migrationLoop me none i ts tr).2.1 = none ∧
      (migrationLoop me none i ts tr).1.length = ts.length ∧
      ∀ j : Nat, (migrationLoop me none i ts tr).1.get? j
        = (ts.get? j).map (fun t => (executeSingleMigration me (i + j) t).1) := by
  intro ts
  induction ts with
  | nil => intro i tr; exact ⟨rfl, rfl, fun j => by simp [migrationLoop]⟩
  | cons t rest ih =>
    intro i tr
    have hcan : ctxCancelledAt none i = false := rfl
    simp only [migrationLoop, hcan, Bool.false_eq_true, if_false,
      List.length_cons]
    obtain ⟨e1, e2, e3⟩ := ih (i + 1)
      (match (executeSingleMigration me i t).1.progress with
      | some pr => (tr.UpdateStep 0 (i + 1) ("执行 " ++ t ++ " 迁移")).UpdateProgress
          0 pr.percentage pr.message
      | none => tr.UpdateStep 0 (i + 1) ("执行 " ++ t ++ " 迁移"))
    refine ⟨e1, by rw [e2], ?_⟩
    intro j
    cases j with
    | zero => simp
    | succ j =>
      simp only [List.get?_cons_succ, List.get?]
      rw [e3 j]
      have : i + 1 + j = i + (j + 1) := by omega
      rw [this]

/-- Counterexample to claim C3 as stated: when EnsureDir fails in
prepareEnvironment, ExecuteWithProgress returns a non-nil error that is
not the cancellation error, with no cancellation involved (the schedule is
`none`) and nil results. -/
theorem executeWithProgress_prepFail_error :
    (ExecuteWithProgress mePrepFail none ["TABLE"] {}).2.1
      = some (.createFailed "output") ∧
    MigErrM.createFailed "output" ≠ MigErrM.cancelled ∧
    (ExecuteWithProgress mePrepFail none ["TABLE"] {}).1 = [] :=
  ⟨rfl, by simp, rfl⟩

/-- Claim C3, amended: provided environment preparation succeeds, the
returned error is non-nil exactly when cancellation interrupted the loop —
in that case it is the cancellation error, the k results collected before
the cancellation point are still returned, and no further step is started;
with no cancellation (including when individual steps fail) the error is
nil.  When environment preparation fails, ExecuteWithProgress instead
returns that preparation error with nil results, before any step runs. -/
theorem executeWithProgress_error_only_cancel (me : MigEnv)
    (cf : Option Nat) (types : List String) (tr : ProgressTracker)
    (hprep : prepareEnvironment me = none) :
    ((ExecuteWithProgress me cf types tr).2.1 ≠ none →
      ∃ k, cf = some k ∧ k < types.length ∧
        (ExecuteWithProgress me cf types tr).2.1 = some .cancelled ∧
        (ExecuteWithProgress me cf types tr).1.length = k) ∧
    (cf = none → (ExecuteWithProgress me cf types tr).2.1 = none) := by
  simp only [ExecuteWithProgress, hprep]
  constructor
  · intro hne
    cases cf with
    | none => exact absurd (migrationLoop_none_spec me types 0 tr).1 hne
    | some k =>
      rcases lt_or_le k types.length with hk | hk
      · have h := (migrationLoop_cancel_spec me k types 0 tr).1
          (Nat.zero_le k) (by omega)
        exact ⟨k, rfl, hk, h.1, by rw [h.2]; omega⟩
      · exact absurd ((migrationLoop_cancel_spec me k types 0 tr).2
          (by omega)).1 hne
  · intro h
    subst h
    exact (migrationLoop_none_spec me types 0 tr).1

/-- Witness for the amended C3: three steps, cancellation observed from
the second iteration on — one result, the cancellation error. -/
theorem executeWithProgress_error_only_cancel_witness :
    (ExecuteWithProgress meOk (some 1) typesThree {}).2.1
      = some .cancelled ∧
    (ExecuteWithProgress meOk (some 1) typesThree {}).1.length = 1 := by
  have h := (executeWithProgress_error_only_cancel meOk (some 1) typesThree {}
    rfl).1 (by rw [show (ExecuteWithProgress meOk (some 1) typesThree {}).2.1
      = some .cancelled from rfl]; simp)
  obtain ⟨k, hk, -, he, hl⟩ := h
  have hk1 : k = 1 := by injection hk with h1; omega
  subst hk1
  exact ⟨he, hl⟩

/-- Claim C4: without cancellation (and with the environment prepared),
ExecuteWithProgress returns no error and exactly one result per step in
execution order, the j-th being the Execute outcome of the j-th step — a
failing step never aborts the loop. -/
theorem executeWithProgress_best_effort (me : MigEnv) (cf : Option Nat)
    (types : List String) (tr : ProgressTracker)
    (hprep : prepareEnvironment me = none) (hcf : cf = none) :
    (ExecuteWithProgress me cf types tr).2.1 = none ∧
    (ExecuteWithProgress me cf types tr).1.length = types.length ∧
    ∀ j : Nat, (ExecuteWithProgress me cf types tr).1.get? j
      = (types.get? j).map (fun t => (executeSingleMigration me j t).1) := by
  subst hcf
  simp only [ExecuteWithProgress, hprep]
  obtain ⟨e1, e2, e3⟩ := migrationLoop_none_spec me types 0 tr
  exact ⟨e1, e2, fun j => by rw [e3 j]; simp⟩

/-- Witness for C4, the P6 scenario: three steps, the second exits with
code 3; three results, statuses Completed/Failed/Completed, no error. -/
theorem executeWithProgress_best_effort_witness :
    (ExecuteWithProgress meStep2Fails none typesThree {}).2.1 = none ∧
    (ExecuteWithProgress meStep2Fails none typesThree {}).1.length = 3 ∧
    (ExecuteWithProgress meStep2Fails none typesThree {}).1.map
      (fun r => r.status) = [.completed, .failed, .completed] ∧
    (ExecuteWithProgress meStep2Fails none typesThree {}).1.map
      (fun r => r.exitCode) = [0, 3, 0] := by
  refine ⟨(executeWithProgress_best_effort meStep2Fails none typesThree {}
    rfl rfl).1, ?_, rfl, rfl⟩
  rw [(executeWithProgress_best_effort meStep2Fails none typesThree {}
    rfl rfl).2.1]
  rfl

/-! ## Theorems: the output-pump channel structure (claim C1) -/

/-- Every scheduler step preserves the stuck invariant of the imbalanced
run: with 101 lines bound for a capacity-100 channel that is only drained
after the done barrier, the stderr reader can never finish sending, hence
never signals, hence the barrier never opens. -/
theorem pumpStep_preserves_stuckInv (s s2 : PumpState) (h : PumpStep s s2)
    (hi : pumpStuckInv s) : pumpStuckInv s2 := by
  obtain ⟨hd, hc, hsum, hcap⟩ := hi
  cases h with
  | sendOut l rest h hq => exact ⟨hd, hc, hsum, hcap⟩
  | sendErr l rest h hq =>
    have hlen : s.errLines.length = rest.length + 1 := by rw [h]; rfl
    refine ⟨hd, hc, ?_, ?_⟩ <;> simp <;> omega
  | signalOut h hd2 => exact ⟨hd, hc, hsum, hcap⟩
  | signalErr h hd2 =>
    exfalso
    have hlen : s.errLines.length = 0 := by rw [h]; rfl
    omega
  | collect h1 h2 h3 => exact absurd h2 (by rw [hd]; simp)

/-- Claim C1 fails on the code (code bug): in the imbalanced-output
scenario — 101 lines written to stderr, nothing to stdout — no reachable
state of the executeCommand channel system has the stderr reader's done
signal delivered or the output collected: readOutput blocks forever on the
101st send into the full capacity-100 errorChan, which executeCommand only
drains after the done barrier, so Execute never completes. -/
theorem executeCommand_imbalanced_deadlock :
    ∀ s : PumpState, PumpReach imbalancedInit s →
      s.errDone = false ∧ s.collected = none := by
  intro s h
  have hinv : pumpStuckInv s := by
    induction h with
    | refl =>
      refine ⟨rfl, rfl, ?_, ?_⟩ <;> simp [imbalancedInit, pumpInit]
    | tail h1 h2 ih => exact pumpStep_preserves_stuckInv _ _ h2 ih
  exact ⟨hinv.1, hinv.2.1⟩

/-- Witness for C1's theorem at the initial state itself. -/
theorem executeCommand_imbalanced_deadlock_witness :
    imbalancedInit.errDone = false ∧ imbalancedInit.collected = none :=
  executeCommand_imbalanced_deadlock imbalancedInit Relation.ReflTransGen.refl

/-- Sanity check that the pump model is not vacuously stuck: with a single
stderr line the system does reach a collected state. -/
theorem pumpModel_completes_on_small_output :
    ∃ s : PumpState, PumpReach (pumpInit [] ["a"]) s ∧
      s.collected.isSome = true := by
  refine ⟨_, Relation.ReflTransGen.head
    (PumpStep.sendErr _ "a" [] rfl (by decide))
    (Relation.ReflTransGen.head (PumpStep.signalOut _ rfl rfl)
      (Relation.ReflTransGen.head (PumpStep.signalErr _ rfl rfl)
        (Relation.ReflTransGen.single (PumpStep.collect _ rfl rfl rfl)))),
    rfl⟩
